import Mathlib

/-!
Verification of the std-embedded-time library: a host-backed
embedded-time Clock with nanosecond ticks and a 64-bit tick register.

The host monotonic source (std::time::Instant) is embedded as an
unbounded natural number of nanoseconds since an arbitrary epoch; each
call to try_now is passed the reading of the source at that call.
Machine integers are embedded as Nat with explicit reduction modulo
2 ^ 64 at the point where the Rust code casts to u64.
-/

namespace StdEmbeddedTime

/-- Nanoseconds per second, the denominator of the scaling factor. -/
def NANOS_PER_SEC : Nat := 1000000000

/-- Number of values of a u64, so the modulus of the cast as u64. -/
def u64Size : Nat := 2 ^ 64

/-- Largest value of a u64, the maximal tick count T::MAX. -/
def u64Max : Nat := u64Size - 1

/-- Reading of the host monotonic time source (std::time::Instant),
as a total count of nanoseconds since an arbitrary fixed epoch. -/
structure StdTimeInstant where
  nanos : Nat
deriving DecidableEq, Repr

/-- std::time::Duration: whole seconds plus subsecond nanoseconds. -/
structure StdDuration where
  secs : Nat
  subsecNanos : Nat
deriving DecidableEq, Repr

/-- std::time::Instant::duration_since: elapsed time from earlier to
self, saturating to zero when earlier is in fact later (Nat truncated
subtraction is exactly this saturating behaviour). -/
def StdTimeInstant.duration_since (self earlier : StdTimeInstant) : StdDuration :=
  let e := self.nanos - earlier.nanos
  ⟨e / NANOS_PER_SEC, e % NANOS_PER_SEC⟩

/-- std::time::Duration::as_nanos: the total number of nanoseconds
(returned as u128 in Rust; the true value always fits u128, so no
reduction is needed here). -/
def StdDuration.as_nanos (d : StdDuration) : Nat :=
  d.secs * NANOS_PER_SEC + d.subsecNanos

/-- embedded_time::fraction::Fraction: a rational scaling factor with
unsigned numerator and denominator, expressing seconds per tick. -/
structure Fraction where
  num : Nat
  denom : Nat
deriving DecidableEq, Repr

/-- The StandardClock of src/lib.rs: its only field is the start
reference captured from the monotonic source at construction. -/
structure StandardClock where
  start : StdTimeInstant
deriving DecidableEq, Repr

/-- StandardClock::default: capture the current source reading as the
start reference; the clock is started (Running) from construction. -/
def StandardClock.default (now : StdTimeInstant) : StandardClock :=
  ⟨now⟩

/-- The derived Copy/Clone of StandardClock copies its only field. -/
def StandardClock.clone (self : StandardClock) : StandardClock :=
  ⟨self.start⟩

/-- The associated scaling factor of StandardClock:
Fraction::new(1, 1_000_000_000), one nanosecond per tick. -/
def StandardClock.SCALING_FACTOR : Fraction := ⟨1, NANOS_PER_SEC⟩

/-- The associated tick width of StandardClock: type T = u64. -/
def StandardClock.T_BITS : Nat := 64

/-- Modelled from the spec: the clock error type of the abstraction
(embedded_time::clock::Error is outside this crate). It signals
NotRunning, meaning the source is not started or unavailable. -/
inductive ClockError where
  | NotRunning
deriving DecidableEq, Repr

/-- embedded_time::Instant for StandardClock: a raw u64 tick count,
embedded as the Nat it denotes. -/
structure Instant where
  ticks : Nat
deriving DecidableEq, Repr

/-- StandardClock::try_now: read the source now, take the saturating
elapsed duration since start, and keep the low 64 bits of its total
nanosecond count (the cast as u64 of as_nanos), as an Instant. -/
def StandardClock.try_now (self : StandardClock) (now : StdTimeInstant) :
    Except ClockError Instant :=
  let elapsed := now.duration_since self.start
  Except.ok ⟨elapsed.as_nanos % u64Size⟩

/-- Modelled from the spec: the error returned when a unit or width
conversion of a Duration would exceed the target integer range (the
embedded-time Duration conversion code is outside this crate). -/
inductive ConversionError where
  | ConversionOverflow
deriving DecidableEq, Repr

/-- Modelled from the spec: the embedded-time Duration unit and width
conversion (outside this crate). Given a count n in a source unit with
seconds-per-count Fraction F, a target unit with Fraction U, and the
maximum of the target integer width, compute n * (F / U) with checked
arithmetic: return ConversionOverflow when the true scaled value
exceeds the target maximum, never a wrapped or truncated value. The
comparison is done by exact cross multiplication. -/
def convertDuration (n : Nat) (F U : Fraction) (targetMax : Nat) :
    Except ConversionError Nat :=
  if n * F.num * U.denom ≤ targetMax * (F.denom * U.num) then
    Except.ok (n * F.num * U.denom / (F.denom * U.num))
  else
    Except.error ConversionError.ConversionOverflow

/-- Modelled from the spec: the error signalling the reversed-order
subtraction policy of this repository (the embedded-time Instant
subtraction code is outside this crate). -/
inductive InstantSubError where
  | callerError
deriving DecidableEq, Repr

/-- Modelled from the spec: subtraction of two Instants from the same
clock (outside this crate), later.count - earlier.count, under the
documented minimal reference policy of this repository: assume no
rollover occurred between samples and treat later.count < earlier.count
as caller error rather than silently wrapping around. The result is a
Duration counted in the native tick unit of the clock. -/
def instantSub (later earlier : Instant) : Except InstantSubError Nat :=
  if later.ticks < earlier.ticks then
    Except.error InstantSubError.callerError
  else
    Except.ok (later.ticks - earlier.ticks)

/-- Seconds-per-count Fraction of the milliseconds Duration unit. -/
def msFraction : Fraction := ⟨1, 1000⟩

/-- Seconds-per-count Fraction of the nanoseconds Duration unit. -/
def nsFraction : Fraction := ⟨1, NANOS_PER_SEC⟩

/-- Seconds-per-count Fraction of the seconds Duration unit. -/
def secFraction : Fraction := ⟨1, 1⟩

/-- Helper: try_now returns Ok of the elapsed nanoseconds since the
start reference, reduced modulo 2 ^ 64. -/
theorem try_now_eq (c : StandardClock) (now : StdTimeInstant) :
    c.try_now now = Except.ok ⟨(now.nanos - c.start.nanos) % u64Size⟩ := by
  simp only [StandardClock.try_now, StdTimeInstant.duration_since, StdDuration.as_nanos,
    Nat.div_add_mod']

/-- C1: for two calls to try_now ordered in real time on the same
clock, with non-decreasing source readings and absent rollover, the
raw tick count of the later Instant is at least that of the earlier. -/
theorem stdclock_try_now_monotonic (c : StandardClock) (n1 n2 : StdTimeInstant)
    (hmono : n1.nanos ≤ n2.nanos)
    (hnoroll : n2.nanos - c.start.nanos < u64Size)
    (i1 i2 : Instant)
    (h1 : c.try_now n1 = Except.ok i1) (h2 : c.try_now n2 = Except.ok i2) :
    i1.ticks ≤ i2.ticks := by
  have hle : n1.nanos - c.start.nanos ≤ n2.nanos - c.start.nanos :=
    Nat.sub_le_sub_right hmono _
  have hlt1 : n1.nanos - c.start.nanos < u64Size := lt_of_le_of_lt hle hnoroll
  rw [try_now_eq] at h1 h2
  injection h1 with h1
  injection h2 with h2
  rw [← h1, ← h2]
  simpa [Nat.mod_eq_of_lt hlt1, Nat.mod_eq_of_lt hnoroll] using hle

/-- Witness for C1 at a concrete clock and two concrete readings. -/
theorem stdclock_try_now_monotonic_witness :
    (Instant.mk 3).ticks ≤ (Instant.mk 5).ticks :=
  stdclock_try_now_monotonic ⟨⟨0⟩⟩ ⟨3⟩ ⟨5⟩ (by decide) (by decide) ⟨3⟩ ⟨5⟩ rfl rfl

/-- C2: try_now never returns an error: for every StandardClock and
every reading of the source it returns Ok with an Instant, and in
particular never any ClockError value such as NotRunning. -/
theorem stdclock_try_now_never_errors (c : StandardClock) (now : StdTimeInstant) :
    (∃ i : Instant, c.try_now now = Except.ok i) ∧
      ∀ e : ClockError, c.try_now now ≠ Except.error e := by
  refine ⟨⟨_, try_now_eq c now⟩, fun e h => ?_⟩
  rw [try_now_eq] at h
  exact Except.noConfusion h

/-- C3: the associated tick width T of StandardClock is the unsigned
64-bit integer type and SCALING_FACTOR is Fraction 1/1_000_000_000,
one nanosecond of seconds per tick. -/
theorem stdclock_scaling_factor_and_width :
    StandardClock.SCALING_FACTOR = ⟨1, 1000000000⟩ ∧
      StandardClock.T_BITS = 64 ∧ u64Size = 2 ^ StandardClock.T_BITS :=
  ⟨rfl, rfl, rfl⟩

/-- C4: the raw tick count returned by try_now is the elapsed
nanosecond count e reduced modulo 2 ^ 64 (upper bits discarded), and
the rollover period T::MAX ticks scaled by the Fraction is about 584
years (in 365-day years of 31536000 seconds). -/
theorem stdclock_ticks_mod_u64_and_rollover (c : StandardClock) (now : StdTimeInstant) :
    c.try_now now = Except.ok ⟨(now.nanos - c.start.nanos) % u64Size⟩ ∧
      u64Max * StandardClock.SCALING_FACTOR.num / StandardClock.SCALING_FACTOR.denom
        / 31536000 = 584 :=
  ⟨try_now_eq c now, by decide⟩

/-- C5: a unit or width conversion whose true scaled value exceeds the
target maximum returns ConversionOverflow and never an Ok value. -/
theorem convert_overflow_detected (n : Nat) (F U : Fraction) (targetMax : Nat)
    (h : targetMax * (F.denom * U.num) < n * F.num * U.denom) :
    convertDuration n F U targetMax = Except.error ConversionError.ConversionOverflow ∧
      ∀ v : Nat, convertDuration n F U targetMax ≠ Except.ok v := by
  unfold convertDuration
  rw [if_neg (by omega)]
  exact ⟨rfl, fun v h2 => Except.noConfusion h2⟩

/-- Witness for C5: converting 255 (u8 maximum) milliseconds to
nanoseconds in an 8-bit target width overflows. -/
theorem convert_overflow_detected_witness :
    convertDuration 255 msFraction nsFraction 255
      = Except.error ConversionError.ConversionOverflow :=
  (convert_overflow_detected 255 msFraction nsFraction 255 (by decide)).1

/-- C6: converting a Duration from unit A to unit B and back, when the
conversion is lossless and fits both widths, returns the original
count exactly. -/
theorem convert_roundtrip_lossless (n : Nat) (F U : Fraction) (maxB maxA : Nat)
    (hFn : 0 < F.num) (hFd : 0 < F.denom) (hUn : 0 < U.num) (hUd : 0 < U.denom)
    (hdvd : (F.denom * U.num) ∣ (n * F.num * U.denom))
    (hfit : n * F.num * U.denom ≤ maxB * (F.denom * U.num))
    (hback : n ≤ maxA) :
    (convertDuration n F U maxB).bind (fun v => convertDuration v U F maxA)
      = Except.ok n := by
  obtain ⟨v, hv⟩ := hdvd
  have hD : 0 < F.denom * U.num := Nat.mul_pos hFd hUn
  have hD2 : 0 < U.denom * F.num := Nat.mul_pos hUd hFn
  have hfwd : n * F.num * U.denom / (F.denom * U.num) = v := by
    rw [hv, Nat.mul_div_cancel_left _ hD]
  have hkey : v * U.num * F.denom = n * (U.denom * F.num) := by
    calc v * U.num * F.denom = F.denom * U.num * v := by ring
      _ = n * F.num * U.denom := hv.symm
      _ = n * (U.denom * F.num) := by ring
  unfold convertDuration
  rw [if_pos hfit, hfwd]
  show (if v * U.num * F.denom ≤ maxA * (U.denom * F.num) then
      Except.ok (v * U.num * F.denom / (U.denom * F.num))
    else Except.error ConversionError.ConversionOverflow) = Except.ok n
  rw [if_pos (by rw [hkey]; exact Nat.mul_le_mul hback (le_refl _))]
  rw [hkey, Nat.mul_div_cancel _ hD2]

/-- Witness for C6: 7 milliseconds to nanoseconds and back in 64-bit
widths round-trips to 7 exactly. -/
theorem convert_roundtrip_lossless_witness :
    (convertDuration 7 msFraction nsFraction u64Max).bind
        (fun v => convertDuration v nsFraction msFraction u64Max) = Except.ok 7 :=
  convert_roundtrip_lossless 7 msFraction nsFraction u64Max u64Max
    (by decide) (by decide) (by decide) (by decide) (by decide) (by decide) (by decide)

/-- C7: subtracting the Instant with count 5 from the Instant with
count 1_000_000_005 yields exactly 1_000_000_000 nanosecond ticks,
which the scaling factor of the nanosecond clock converts to exactly
1 second. -/
theorem instant_sub_one_second :
    instantSub ⟨1000000005⟩ ⟨5⟩ = Except.ok 1000000000 ∧
      convertDuration 1000000000 StandardClock.SCALING_FACTOR secFraction u64Max
        = Except.ok 1 :=
  ⟨rfl, rfl⟩

/-- C8: when the minuend raw count is strictly below the subtrahend
raw count, Instant subtraction is flagged as caller error and never
silently produces a wrapped-around Duration. -/
theorem instant_sub_reversed_caller_error (later earlier : Instant)
    (h : later.ticks < earlier.ticks) :
    instantSub later earlier = Except.error InstantSubError.callerError ∧
      ∀ d : Nat, instantSub later earlier ≠ Except.ok d := by
  unfold instantSub
  rw [if_pos h]
  exact ⟨rfl, fun d h2 => Except.noConfusion h2⟩

/-- Witness for C8 at concrete reversed counts 1 and 2. -/
theorem instant_sub_reversed_caller_error_witness :
    instantSub ⟨1⟩ ⟨2⟩ = Except.error InstantSubError.callerError :=
  (instant_sub_reversed_caller_error ⟨1⟩ ⟨2⟩ (by decide)).1

/-- C9: try_now is total: when the source never reads earlier than the
start reference, the internal duration_since does not saturate (the
subtraction is exact, so the underflow branch is unreachable) and
every call returns a value. -/
theorem stdclock_try_now_total (c : StandardClock) (now : StdTimeInstant)
    (h : c.start.nanos ≤ now.nanos) :
    (now.duration_since c.start).as_nanos + c.start.nanos = now.nanos ∧
      ∃ i : Instant, c.try_now now = Except.ok i := by
  constructor
  · simp only [StdTimeInstant.duration_since, StdDuration.as_nanos, Nat.div_add_mod']
    exact Nat.sub_add_cancel h
  · exact ⟨_, try_now_eq c now⟩

/-- Witness for C9 with a clock started at reading 2 observed at 7. -/
theorem stdclock_try_now_total_witness :
    ((StdTimeInstant.mk 7).duration_since (StandardClock.mk ⟨2⟩).start).as_nanos
        + (StandardClock.mk ⟨2⟩).start.nanos = (StdTimeInstant.mk 7).nanos ∧
      ∃ i : Instant, (StandardClock.mk ⟨2⟩).try_now ⟨7⟩ = Except.ok i :=
  stdclock_try_now_total ⟨⟨2⟩⟩ ⟨7⟩ (by decide)

/-- C10: copying a StandardClock yields a clock with the identical
start reference and it is observationally equivalent: on the same
source reading, try_now of the copy equals try_now of the original. -/
theorem stdclock_copy_equiv (c : StandardClock) (now : StdTimeInstant) :
    c.clone = c ∧ c.clone.start = c.start ∧ c.clone.try_now now = c.try_now now :=
  ⟨rfl, rfl, rfl⟩

end StdEmbeddedTime
